import Mathlib

/-!
# TngOverlayPlane (ips/tangier/TngOverlayPlane.cpp)

A shallow embedding of the Tangier overlay plane: `flip`, `setDataBuffer`,
`initialize`, `deinitialize`, `reset`, `rotatedBufferReady` and `flush`.

* `uint32_t` values are natural numbers, wrapped with `u32` where the C++
  arithmetic can leave the 32-bit range.
* Pointers are `Option`s: `none` is `NULL`.  An operation returns `none`
  when the C++ dereferences a pointer that is not there (`mBackBuffer[mCurrent]`
  without a slot, `mRotationBufProvider->...` on `NULL`).
* The collaborators whose code is not part of this file (the base plane, the
  rotation buffer provider, the DRM channel) and the header constants are
  fields of `Env`; the value of `systemTime()` is an argument.  Every call
  made to the provider or to the channel is recorded in a trace that the
  operation returns.
-/

namespace Tangier

/-- Truncation to a 32-bit unsigned word. -/
def u32 (n : Nat) : Nat := n % 2 ^ 32

/-! ## Data model -/

/-- The fields of `struct VideoPayloadBuffer` that the plane reads or writes;
`other_fields` stands for the rest of the struct. -/
structure VideoPayloadBuffer where
  force_output_method : Nat
  client_transform : Nat
  layer_transform : Nat
  hwc_timestamp : Nat
  other_fields : Nat
deriving DecidableEq, Repr

/-- What the plane reads of a `BufferMapper`.  `subBuffer1` is the memory
behind `getCpuAddress(SUB_BUFFER1)` seen as a payload, `subBuffer0` the
pointer `getCpuAddress(SUB_BUFFER0)`. -/
structure BufferMapper where
  format : Nat
  width : Nat
  height : Nat
  yStride : Nat
  subBuffer0 : Option Nat
  subBuffer1 : Option VideoPayloadBuffer
deriving DecidableEq, Repr

/-- The two start registers of `mBackBuffer[i]->buf` that the plane touches. -/
structure OverlayBackBuffer where
  OSTART_0Y : Nat
  OSTART_1Y : Nat
deriving DecidableEq, Repr

/-- One back buffer slot, `mBackBuffer[i]`. -/
structure OverlayBackBufferBlk where
  buf : OverlayBackBuffer
  gttOffsetInPage : Nat
deriving DecidableEq, Repr

/-- The members of the base classes (`DisplayPlane`, `OverlayPlaneBase`) that
`TngOverlayPlane` reads or writes.  The plane index, the device and the
transform are non-negative numbers; `mPipeConfig` is a 32-bit word wherever a
theorem says so. -/
structure OverlayPlaneBase where
  mInitialized : Bool
  mIndex : Nat
  mDevice : Nat
  mPipeConfig : Nat
  mTransform : Nat
  mIsProtectedBuffer : Bool
  mCurrent : Nat
  mBackBuffer : List OverlayBackBufferBlk
  mWsbm : Nat
deriving DecidableEq, Repr

/-- The overlay part of `mContext`: `mContext.type` and `mContext.ctx.ov_ctx`. -/
structure OverlayContext where
  type : Nat
  ovadd : Nat
  index : Nat
  pipe : Nat
deriving DecidableEq, Repr

/-- The plane: its base part, `mContext` and `mRotationBufProvider`; `σ` is
the state of a `RotationBufferProvider` object. -/
structure TngOverlayPlane (σ : Type) where
  base : OverlayPlaneBase
  mContext : OverlayContext
  mRotationBufProvider : Option σ
deriving DecidableEq

/-- The fields of `struct drm_psb_register_rw_arg` that `flush` writes;
`other_fields` stands for every other byte of the struct. -/
structure drm_psb_register_rw_arg where
  plane_enable_mask : Nat
  plane_disable_mask : Nat
  plane_type : Nat
  plane_index : Nat
  plane_ctx : Nat
  other_fields : Nat
deriving DecidableEq, Repr

/-- One call made on the rotation buffer provider (or its construction and
destruction). -/
inductive ProviderCall where
  | construct (wsbm : Nat)
  | init
  | deinit
  | destroy
  | reset
  | prepareBufferInfo (width height stride : Nat) (p : Nat)
  | setupRotationBuffer (payload : VideoPayloadBuffer) (transform : Nat)
deriving DecidableEq, Repr

/-- The header constants and the collaborators of the plane.  None of them is
defined in TngOverlayPlane.cpp, so each is a field here. -/
structure Env (σ : Type) where
  DC_OVERLAY_PLANE : Nat
  PLANE_ENABLE : Nat
  PLANE_DISABLE : Nat
  OMX_INTEL_COLOR_FormatYUV420PackedSemiPlanar : Nat
  OMX_INTEL_COLOR_FormatYUV420PackedSemiPlanar_Tiled : Nat
  HAL_PIXEL_FORMAT_NV12 : Nat
  FORCE_OUTPUT_GPU : Nat
  /-- The call `DisplayPlane::flip(ctx)`: result and base state after it. -/
  DisplayPlane_flip : OverlayPlaneBase → Nat → Bool × OverlayPlaneBase
  /-- The call `OverlayPlaneBase::setDataBuffer(mapper)`. -/
  OverlayPlaneBase_setDataBuffer : OverlayPlaneBase → BufferMapper → Bool × OverlayPlaneBase
  /-- The call `OverlayPlaneBase::initialize(bufferCount)`. -/
  OverlayPlaneBase_initialize : OverlayPlaneBase → Nat → Bool × OverlayPlaneBase
  /-- The call `OverlayPlaneBase::reset()`. -/
  OverlayPlaneBase_reset : OverlayPlaneBase → OverlayPlaneBase
  /-- The call `getTTMMapper(mapper, payload)`; the result is the pointer. -/
  getTTMMapper : BufferMapper → VideoPayloadBuffer → Nat
  /-- The expression `new RotationBufferProvider(mWsbm)`; `none` is `NULL`. -/
  newRotationBufferProvider : Nat → Option σ
  /-- The call `RotationBufferProvider::initialize()`. -/
  provider_initialize : σ → Bool × σ
  /-- The call `RotationBufferProvider::reset()`. -/
  provider_reset : σ → σ
  /-- The call `prepareBufferInfo(w, h, stride, &buffer_info, p)`: the fourth
  argument is the content of `buffer_info` before the call. -/
  prepareBufferInfo : σ → Nat → Nat → Nat → VideoPayloadBuffer → Nat → Bool × VideoPayloadBuffer × σ
  /-- The call `setupRotationBuffer(payload, transform)`. -/
  setupRotationBuffer : σ → VideoPayloadBuffer → Nat → Bool × VideoPayloadBuffer × σ
  /-- The call `drm->writeReadIoctl(DRM_PSB_REGISTER_RW, &arg, sizeof(arg))`. -/
  writeReadIoctl : drm_psb_register_rw_arg → Bool

/-- Modelled from the spec: the guard `RETURN_FALSE_IF_NOT_INIT()`, whose
definition is in a header that is not part of the source.  The data-path
operations require the plane to be initialized; `true` means that the guard
fires and the operation returns false. -/
def RETURN_FALSE_IF_NOT_INIT (b : OverlayPlaneBase) : Bool :=
  b.mInitialized == false

/-- Modelled from the spec: `OverlayPlaneBase::deinitialize()`, which is not
part of the source.  It releases the base resources (the back buffer pool) and
moves the plane to the deinitialized state. -/
def OverlayPlaneBase.deinitialize (b : OverlayPlaneBase) : OverlayPlaneBase :=
  { b with mInitialized := false, mBackBuffer := [] }

/-- Modelled from the spec: `DEINIT_AND_DELETE_OBJ(X)`, whose definition is in
a header that is not part of the source.  A provider that exists is
deinitialized and released, and the pointer is cleared. -/
def DEINIT_AND_DELETE_OBJ {σ : Type} (x : Option σ) : Option σ × List ProviderCall :=
  match x with
  | none => (none, [])
  | some _ => (none, [ProviderCall.deinit, ProviderCall.destroy])

/-! ## Operations -/

/-- The memset of the constructor and of `flush`: every field zero. -/
def drm_psb_register_rw_arg.zero : drm_psb_register_rw_arg :=
  ⟨0, 0, 0, 0, 0, 0⟩

/-- The method `TngOverlayPlane::flip`. -/
def TngOverlayPlane.flip {σ : Type} (E : Env σ) (self : TngOverlayPlane σ) (ctx : Nat) :
    Option (Bool × TngOverlayPlane σ) :=
  if RETURN_FALSE_IF_NOT_INIT self.base then some (false, self)
  else
    let r := E.DisplayPlane_flip self.base ctx
    if r.1 = false then some (false, { self with base := r.2 })
    else
      let c0 : OverlayContext := { self.mContext with type := E.DC_OVERLAY_PLANE }
      let c1 : OverlayContext := { c0 with ovadd := 0 }
      match r.2.mBackBuffer[r.2.mCurrent]? with
      | none => none
      | some blk =>
        let c2 : OverlayContext := { c1 with ovadd := u32 (blk.gttOffsetInPage <<< 12) }
        let c3 : OverlayContext := { c2 with index := r.2.mIndex }
        let c4 : OverlayContext := { c3 with pipe := r.2.mDevice }
        let c5 : OverlayContext := { c4 with ovadd := u32 (c4.ovadd ||| r.2.mPipeConfig) }
        let c6 : OverlayContext := { c5 with ovadd := u32 (c5.ovadd ||| 1) }
        some (true, { self with base := r.2, mContext := c6 })

/-- The method `TngOverlayPlane::deinitialize`. -/
def TngOverlayPlane.deinitialize {σ : Type} (self : TngOverlayPlane σ) :
    TngOverlayPlane σ × List ProviderCall :=
  let d := DEINIT_AND_DELETE_OBJ self.mRotationBufProvider
  ({ self with mRotationBufProvider := d.1, base := OverlayPlaneBase.deinitialize self.base }, d.2)

/-- Modelled from the spec: `DEINIT_AND_RETURN_FALSE(...)`, whose definition is
in a header that is not part of the source: the object is deinitialized
(through its own `deinitialize`) and the operation returns false. -/
def DEINIT_AND_RETURN_FALSE {σ : Type} (self : TngOverlayPlane σ)
    (calls : List ProviderCall) : Bool × TngOverlayPlane σ × List ProviderCall :=
  let d := TngOverlayPlane.deinitialize self
  (false, d.1, calls ++ d.2)

/-- The method `TngOverlayPlane::initialize`. -/
def TngOverlayPlane.initialize {σ : Type} (E : Env σ) (self : TngOverlayPlane σ)
    (bufferCount : Nat) : Bool × TngOverlayPlane σ × List ProviderCall :=
  let r := E.OverlayPlaneBase_initialize self.base bufferCount
  if r.1 = false then (false, { self with base := r.2 }, [])
  else
    match E.newRotationBufferProvider r.2.mWsbm with
    | none =>
      DEINIT_AND_RETURN_FALSE { self with base := r.2, mRotationBufProvider := none } []
    | some s =>
      let i := E.provider_initialize s
      let calls := [ProviderCall.construct r.2.mWsbm, ProviderCall.init]
      if i.1 = false then
        DEINIT_AND_RETURN_FALSE { self with base := r.2, mRotationBufProvider := some i.2 } calls
      else (true, { self with base := r.2, mRotationBufProvider := some i.2 }, calls)

/-- The method `TngOverlayPlane::reset`. -/
def TngOverlayPlane.reset {σ : Type} (E : Env σ) (self : TngOverlayPlane σ) :
    Bool × TngOverlayPlane σ × List ProviderCall :=
  let b := E.OverlayPlaneBase_reset self.base
  match self.mRotationBufProvider with
  | none => (true, { self with base := b }, [])
  | some s =>
    (true, { self with base := b, mRotationBufProvider := some (E.provider_reset s) },
      [ProviderCall.reset])

/-- The method `TngOverlayPlane::getContext`. -/
def TngOverlayPlane.getContext {σ : Type} (self : TngOverlayPlane σ) : OverlayContext :=
  self.mContext

/-- The method `TngOverlayPlane::setDataBuffer`. -/
def TngOverlayPlane.setDataBuffer {σ : Type} (E : Env σ) (self : TngOverlayPlane σ)
    (mapper : BufferMapper) : Option (Bool × TngOverlayPlane σ) :=
  let r := E.OverlayPlaneBase_setDataBuffer self.base mapper
  if r.1 = false then some (false, { self with base := r.2 })
  else if r.2.mIsProtectedBuffer then
    match r.2.mBackBuffer[r.2.mCurrent]? with
    | none => none
    | some blk =>
      let b1 : OverlayBackBuffer := { blk.buf with OSTART_0Y := u32 (blk.buf.OSTART_0Y ||| 1) }
      let b2 : OverlayBackBuffer := { b1 with OSTART_1Y := u32 (b1.OSTART_1Y ||| 1) }
      some (true, { self with base :=
        { r.2 with mBackBuffer := r.2.mBackBuffer.set r.2.mCurrent { blk with buf := b2 } } })
  else some (true, { self with base := r.2 })

/-- The method `TngOverlayPlane::flush`: the result and the requests handed to
`writeReadIoctl`, in order. -/
def TngOverlayPlane.flush {σ : Type} (E : Env σ) (self : TngOverlayPlane σ) (flags : Nat) :
    Option (Bool × List drm_psb_register_rw_arg) :=
  if RETURN_FALSE_IF_NOT_INIT self.base then some (false, [])
  else if flags &&& E.PLANE_ENABLE = 0 ∧ flags &&& E.PLANE_DISABLE = 0 then some (false, [])
  else
    let a0 := drm_psb_register_rw_arg.zero
    let a1 : drm_psb_register_rw_arg :=
      if flags &&& E.PLANE_DISABLE ≠ 0 then { a0 with plane_disable_mask := 1 }
      else if flags &&& E.PLANE_ENABLE ≠ 0 then { a0 with plane_enable_mask := 1 }
      else a0
    let a2 : drm_psb_register_rw_arg := { a1 with plane_type := E.DC_OVERLAY_PLANE }
    let a3 : drm_psb_register_rw_arg := { a2 with plane_index := self.base.mIndex }
    match self.base.mBackBuffer[self.base.mCurrent]? with
    | none => none
    | some blk =>
      let a4 : drm_psb_register_rw_arg := { a3 with plane_ctx := u32 (blk.gttOffsetInPage <<< 12) }
      let a5 : drm_psb_register_rw_arg := { a4 with plane_ctx := u32 (a4.plane_ctx ||| self.base.mPipeConfig) }
      let ret := E.writeReadIoctl a5
      if ret = false then some (false, [a5]) else some (true, [a5])

/-- What a call of `rotatedBufferReady` leaves behind: the result, the output
parameter `rotatedMapper` (`none`: never assigned), the mapper with the memory
of its payload, the provider and the calls made on the provider. -/
structure RotatedResult (σ : Type) where
  ret : Bool
  rotatedMapper : Option Nat
  mapper : BufferMapper
  provider : Option σ
  calls : List ProviderCall
deriving DecidableEq

/-- Where the payload pointer of `rotatedBufferReady` points after the lookup
(source lines 143 to 168). -/
inductive PayloadLookup (σ : Type) where
  /-- The call returned false before a payload was found. -/
  | failed (provider : Option σ) (calls : List ProviderCall)
  /-- The provider pointer was dereferenced while `NULL`. -/
  | nullProvider
  /-- The variable `payload` points to the memory of `SUB_BUFFER1`
  (`embedded = true`) or to the local `buffer_info` (`embedded = false`). -/
  | found (payload : VideoPayloadBuffer) (embedded : Bool) (provider : Option σ)
      (calls : List ProviderCall)

/-- The first part of `rotatedBufferReady` after the format test: reading the
payload of `SUB_BUFFER1`, or building one in `buffer_info` for
`HAL_PIXEL_FORMAT_NV12`.  `uninit` is the content of the local `buffer_info`
before it is written. -/
def TngOverlayPlane.lookupPayload {σ : Type} (E : Env σ) (uninit : VideoPayloadBuffer)
    (self : TngOverlayPlane σ) (mapper : BufferMapper) : PayloadLookup σ :=
  match mapper.subBuffer1 with
  | some payload => PayloadLookup.found payload true self.mRotationBufProvider []
  | none =>
    if mapper.format = E.HAL_PIXEL_FORMAT_NV12 then
      match mapper.subBuffer0 with
      | none => PayloadLookup.failed self.mRotationBufProvider []
      | some p =>
        match self.mRotationBufProvider with
        | none => PayloadLookup.nullProvider
        | some s =>
          let r := E.prepareBufferInfo s mapper.width mapper.height mapper.yStride uninit p
          let calls := [ProviderCall.prepareBufferInfo mapper.width mapper.height mapper.yStride p]
          if r.1 = false then PayloadLookup.failed (some r.2.2) calls
          else PayloadLookup.found r.2.1 false (some r.2.2) calls
    else PayloadLookup.failed self.mRotationBufProvider []

/-- Writing through the pointer `payload`: the memory of `SUB_BUFFER1` when the
payload is the embedded one, the local `buffer_info` (gone after the call)
otherwise. -/
def storePayload (mapper : BufferMapper) (embedded : Bool) (payload : VideoPayloadBuffer) :
    BufferMapper :=
  if embedded then { mapper with subBuffer1 := some payload } else mapper

/-- The second part of `rotatedBufferReady` (source lines 170 to 186), from the
test of `force_output_method` on. -/
def TngOverlayPlane.rotateWithPayload {σ : Type} (E : Env σ) (now : Nat)
    (self : TngOverlayPlane σ) (mapper : BufferMapper) (payload : VideoPayloadBuffer)
    (embedded : Bool) (provider : Option σ) (calls : List ProviderCall) :
    Option (RotatedResult σ) :=
  if payload.force_output_method = E.FORCE_OUTPUT_GPU then
    some ⟨false, none, mapper, provider, calls⟩
  else if payload.client_transform ≠ self.base.mTransform then
    let p1 : VideoPayloadBuffer := { payload with hwc_timestamp := now }
    let p2 : VideoPayloadBuffer := { p1 with layer_transform := self.base.mTransform }
    match provider with
    | none => none
    | some s =>
      let r := E.setupRotationBuffer s p2 self.base.mTransform
      let calls2 := calls ++ [ProviderCall.setupRotationBuffer p2 self.base.mTransform]
      let mapper2 := storePayload mapper embedded r.2.1
      if r.1 = false then some ⟨false, none, mapper2, some r.2.2, calls2⟩
      else some ⟨true, some (E.getTTMMapper mapper2 r.2.1), mapper2, some r.2.2, calls2⟩
  else some ⟨true, some (E.getTTMMapper mapper payload), mapper, provider, calls⟩

/-- The method `TngOverlayPlane::rotatedBufferReady`.  `now` is the value of
`systemTime()`, `uninit` the content of the local `buffer_info` before it is
written.  `none` is a dereference of `mRotationBufProvider` while `NULL`. -/
def TngOverlayPlane.rotatedBufferReady {σ : Type} (E : Env σ) (now : Nat)
    (uninit : VideoPayloadBuffer) (self : TngOverlayPlane σ) (mapper : BufferMapper) :
    Option (RotatedResult σ) :=
  if mapper.format ≠ E.OMX_INTEL_COLOR_FormatYUV420PackedSemiPlanar ∧
      mapper.format ≠ E.OMX_INTEL_COLOR_FormatYUV420PackedSemiPlanar_Tiled ∧
      mapper.format ≠ E.HAL_PIXEL_FORMAT_NV12 then
    some ⟨false, none, mapper, self.mRotationBufProvider, []⟩
  else
    match self.lookupPayload E uninit mapper with
    | PayloadLookup.failed provider calls => some ⟨false, none, mapper, provider, calls⟩
    | PayloadLookup.nullProvider => none
    | PayloadLookup.found payload embedded provider calls =>
      self.rotateWithPayload E now mapper payload embedded provider calls

/-- The number of `setupRotationBuffer` calls in a trace. -/
def setupCount (calls : List ProviderCall) : Nat :=
  (calls.filter fun c =>
    match c with
    | ProviderCall.setupRotationBuffer _ _ => true
    | _ => false).length

/-- The provider objects constructed in a trace. -/
def constructCount (calls : List ProviderCall) : Nat :=
  (calls.filter fun c =>
    match c with
    | ProviderCall.construct _ => true
    | _ => false).length

/-- The provider objects released in a trace. -/
def destroyCount (calls : List ProviderCall) : Nat :=
  (calls.filter fun c =>
    match c with
    | ProviderCall.destroy => true
    | _ => false).length

/-! ## A concrete environment -/

/-- An environment over providers whose state is a counter of the rotations
they computed, with the values the platform headers give to the constants. -/
def sampleEnv : Env Nat where
  DC_OVERLAY_PLANE := 2
  PLANE_ENABLE := 1
  PLANE_DISABLE := 2
  OMX_INTEL_COLOR_FormatYUV420PackedSemiPlanar := 0x7FA00E00
  OMX_INTEL_COLOR_FormatYUV420PackedSemiPlanar_Tiled := 0x7FA00F00
  HAL_PIXEL_FORMAT_NV12 := 0x3231564E
  FORCE_OUTPUT_GPU := 1
  DisplayPlane_flip := fun b _ => (true, b)
  OverlayPlaneBase_setDataBuffer := fun b _ => (true, b)
  OverlayPlaneBase_initialize := fun b n =>
    (true, { b with mInitialized := true, mBackBuffer := List.replicate n ⟨⟨0, 0⟩, 0⟩ })
  OverlayPlaneBase_reset := fun b => b
  getTTMMapper := fun m p => m.format + p.layer_transform + 1
  newRotationBufferProvider := fun _ => some 0
  provider_initialize := fun s => (true, s)
  provider_reset := fun _ => 0
  prepareBufferInfo := fun s w h stride _ _ => (true, ⟨0, 0, 0, 0, w + h + stride⟩, s)
  setupRotationBuffer := fun s p _ => (true, p, s + 1)
  writeReadIoctl := fun _ => true

/-- The sample environment with a base whose calls all fail, a provider that
cannot be initialized and a channel that rejects every request. -/
def failingEnv : Env Nat :=
  { sampleEnv with
    DisplayPlane_flip := fun b _ => (false, b)
    OverlayPlaneBase_setDataBuffer := fun b _ => (false, b)
    provider_initialize := fun s => (false, s)
    setupRotationBuffer := fun s p _ => (false, p, s)
    writeReadIoctl := fun _ => false }

/-- The sample environment with a base setDataBuffer that requires the plane
to be initialized, as the data-path operations of the base do. -/
def guardedEnv : Env Nat :=
  { sampleEnv with
    OverlayPlaneBase_setDataBuffer := fun b _ => (b.mInitialized, b) }

/-- An initialized plane on pipe 1 with two back buffers; the current one is
at page 0x345 and its buffer is protected. -/
def samplePlane : TngOverlayPlane Nat where
  base :=
    { mInitialized := true
      mIndex := 1
      mDevice := 1
      mPipeConfig := 0x80
      mTransform := 4
      mIsProtectedBuffer := true
      mCurrent := 1
      mBackBuffer := [⟨⟨0x1000, 0x2000⟩, 0x344⟩, ⟨⟨0x3000, 0x4000⟩, 0x345⟩]
      mWsbm := 7 }
  mContext := ⟨0, 0, 0, 0⟩
  mRotationBufProvider := some 0

/-- A plane that was constructed and never initialized. -/
def freshPlane : TngOverlayPlane Nat where
  base :=
    { mInitialized := false
      mIndex := 1
      mDevice := 1
      mPipeConfig := 0x80
      mTransform := 0
      mIsProtectedBuffer := false
      mCurrent := 0
      mBackBuffer := []
      mWsbm := 7 }
  mContext := ⟨0, 0, 0, 0⟩
  mRotationBufProvider := none

/-! ## Shared lemmas -/

theorem u32_or_u32 (a b : Nat) : u32 (u32 a ||| b) = (a ||| b) % 2 ^ 32 := by
  unfold u32
  apply Nat.eq_of_testBit_eq
  intro i
  simp only [Nat.testBit_mod_two_pow, Nat.testBit_or]
  by_cases h : i < 32 <;> simp [h]

theorem shiftLeft12_lt (g : Nat) (h : g < 2 ^ 20) : g <<< 12 < 2 ^ 32 := by
  rw [Nat.shiftLeft_eq]
  omega

/-- An initialized plane with a current slot and a flags word that has one of
the two bits submits exactly one request, and returns what the channel
returned for it. -/
theorem flush_submits {σ : Type} (E : Env σ) (self : TngOverlayPlane σ) (flags : Nat)
    (blk : OverlayBackBufferBlk)
    (hinit : self.base.mInitialized = true)
    (hflags : ¬ (flags &&& E.PLANE_ENABLE = 0 ∧ flags &&& E.PLANE_DISABLE = 0))
    (hslot : self.base.mBackBuffer[self.base.mCurrent]? = some blk) :
    self.flush E flags =
      some (E.writeReadIoctl
          { plane_enable_mask := if flags &&& E.PLANE_DISABLE ≠ 0 then 0 else 1
            plane_disable_mask := if flags &&& E.PLANE_DISABLE ≠ 0 then 1 else 0
            plane_type := E.DC_OVERLAY_PLANE
            plane_index := self.base.mIndex
            plane_ctx := (blk.gttOffsetInPage <<< 12 ||| self.base.mPipeConfig) % 2 ^ 32
            other_fields := 0 },
        [{ plane_enable_mask := if flags &&& E.PLANE_DISABLE ≠ 0 then 0 else 1
           plane_disable_mask := if flags &&& E.PLANE_DISABLE ≠ 0 then 1 else 0
           plane_type := E.DC_OVERLAY_PLANE
           plane_index := self.base.mIndex
           plane_ctx := (blk.gttOffsetInPage <<< 12 ||| self.base.mPipeConfig) % 2 ^ 32
           other_fields := 0 }]) := by
  unfold TngOverlayPlane.flush
  simp only [RETURN_FALSE_IF_NOT_INIT, hinit, hflags, hslot, u32_or_u32,
    drm_psb_register_rw_arg.zero]
  by_cases hd : flags &&& E.PLANE_DISABLE = 0
  · have he : flags &&& E.PLANE_ENABLE ≠ 0 := fun h => hflags ⟨h, hd⟩
    simp [hd, he]
    cases E.writeReadIoctl _ <;> simp
  · simp [hd]
    cases E.writeReadIoctl _ <;> simp

/-! ## flip -/

/-- C1: on an initialized plane whose base flip check succeeds, with a current
slot whose page offset fits in 20 bits (and a 32-bit pipe configuration word),
flip returns true and leaves a context with the overlay plane type, with
ovadd equal to the page offset shifted left by 12, ORed with mPipeConfig and
with 1, with index mIndex and with pipe mDevice. -/
theorem C1_flip_builds_context {σ : Type} (E : Env σ) (self : TngOverlayPlane σ) (ctx : Nat)
    (blk : OverlayBackBufferBlk)
    (hinit : self.base.mInitialized = true)
    (hbase : (E.DisplayPlane_flip self.base ctx).1 = true)
    (hslot : (E.DisplayPlane_flip self.base ctx).2.mBackBuffer[
      (E.DisplayPlane_flip self.base ctx).2.mCurrent]? = some blk)
    (hoff : blk.gttOffsetInPage < 2 ^ 20)
    (hpipe : (E.DisplayPlane_flip self.base ctx).2.mPipeConfig < 2 ^ 32) :
    ∃ out : TngOverlayPlane σ, self.flip E ctx = some (true, out) ∧
      out.base = (E.DisplayPlane_flip self.base ctx).2 ∧
      out.mContext.type = E.DC_OVERLAY_PLANE ∧
      out.mContext.ovadd = blk.gttOffsetInPage <<< 12 ||| out.base.mPipeConfig ||| 1 ∧
      out.mContext.index = out.base.mIndex ∧
      out.mContext.pipe = out.base.mDevice := by
  have h1 : blk.gttOffsetInPage <<< 12 < 2 ^ 32 := shiftLeft12_lt _ hoff
  have h2 : blk.gttOffsetInPage <<< 12 |||
      (E.DisplayPlane_flip self.base ctx).2.mPipeConfig < 2 ^ 32 :=
    Nat.or_lt_two_pow h1 hpipe
  have h3 : blk.gttOffsetInPage <<< 12 |||
      (E.DisplayPlane_flip self.base ctx).2.mPipeConfig ||| 1 < 2 ^ 32 :=
    Nat.or_lt_two_pow h2 (by norm_num)
  refine ⟨{ self with
      base := (E.DisplayPlane_flip self.base ctx).2
      mContext :=
        { type := E.DC_OVERLAY_PLANE
          ovadd := u32 (u32 (u32 (blk.gttOffsetInPage <<< 12) |||
            (E.DisplayPlane_flip self.base ctx).2.mPipeConfig) ||| 1)
          index := (E.DisplayPlane_flip self.base ctx).2.mIndex
          pipe := (E.DisplayPlane_flip self.base ctx).2.mDevice } },
    ?_, rfl, rfl, ?_, rfl, rfl⟩
  · unfold TngOverlayPlane.flip
    simp [RETURN_FALSE_IF_NOT_INIT, hinit, hbase, hslot]
  · show u32 (u32 (u32 (blk.gttOffsetInPage <<< 12) |||
      (E.DisplayPlane_flip self.base ctx).2.mPipeConfig) ||| 1) = _
    unfold u32
    rw [Nat.mod_eq_of_lt h1, Nat.mod_eq_of_lt h2, Nat.mod_eq_of_lt h3]

/-- The flip of the sample plane: page 0x345 on pipe configuration 0x80 gives
ovadd 0x345081. -/
theorem C1_flip_builds_context_witness :
    samplePlane.base.mInitialized = true ∧
    ∃ out : TngOverlayPlane Nat, samplePlane.flip sampleEnv 0 = some (true, out) ∧
      out.base = (sampleEnv.DisplayPlane_flip samplePlane.base 0).2 ∧
      out.mContext.type = sampleEnv.DC_OVERLAY_PLANE ∧
      out.mContext.ovadd = 0x345 <<< 12 ||| out.base.mPipeConfig ||| 1 ∧
      out.mContext.index = out.base.mIndex ∧
      out.mContext.pipe = out.base.mDevice :=
  ⟨rfl, C1_flip_builds_context sampleEnv samplePlane 0 ⟨⟨0x3000, 0x4000⟩, 0x345⟩
    rfl rfl rfl (by decide) (by decide)⟩

/-! ## flush -/

/-- C2: on an initialized plane, a flags word with neither PLANE_ENABLE nor
PLANE_DISABLE makes flush return false without any call of writeReadIoctl; a
flags word with exactly one of the two makes flush call the channel exactly
once, with plane_enable_mask = 1 and plane_disable_mask = 0 when the bit was
enable, and plane_disable_mask = 1 and plane_enable_mask = 0 when it was
disable. -/
theorem C2_flush_flag_cases {σ : Type} (E : Env σ) (self : TngOverlayPlane σ) (flags : Nat)
    (hinit : self.base.mInitialized = true) :
    (flags &&& E.PLANE_ENABLE = 0 ∧ flags &&& E.PLANE_DISABLE = 0 →
      self.flush E flags = some (false, [])) ∧
    (∀ blk : OverlayBackBufferBlk, self.base.mBackBuffer[self.base.mCurrent]? = some blk →
      (flags &&& E.PLANE_ENABLE ≠ 0 ∧ flags &&& E.PLANE_DISABLE = 0 →
        ∃ req : drm_psb_register_rw_arg,
          self.flush E flags = some (E.writeReadIoctl req, [req]) ∧
          req.plane_enable_mask = 1 ∧ req.plane_disable_mask = 0) ∧
      (flags &&& E.PLANE_ENABLE = 0 ∧ flags &&& E.PLANE_DISABLE ≠ 0 →
        ∃ req : drm_psb_register_rw_arg,
          self.flush E flags = some (E.writeReadIoctl req, [req]) ∧
          req.plane_disable_mask = 1 ∧ req.plane_enable_mask = 0)) := by
  refine ⟨?_, ?_⟩
  · intro h
    unfold TngOverlayPlane.flush
    simp [RETURN_FALSE_IF_NOT_INIT, hinit, h]
  · intro blk hslot
    refine ⟨?_, ?_⟩
    · rintro ⟨he, hd⟩
      exact ⟨_, flush_submits E self flags blk hinit (fun h => he h.1) hslot,
        by simp [hd], by simp [hd]⟩
    · rintro ⟨_, hd⟩
      exact ⟨_, flush_submits E self flags blk hinit (fun h => hd h.2) hslot,
        by simp [hd], by simp [hd]⟩

/-- The three flag cases on the sample plane: flags 4, 1 and 2. -/
theorem C2_flush_flag_cases_witness :
    samplePlane.base.mInitialized = true ∧
    samplePlane.flush sampleEnv 4 = some (false, []) ∧
    (∃ req : drm_psb_register_rw_arg,
      samplePlane.flush sampleEnv 1 = some (sampleEnv.writeReadIoctl req, [req]) ∧
      req.plane_enable_mask = 1 ∧ req.plane_disable_mask = 0) ∧
    (∃ req : drm_psb_register_rw_arg,
      samplePlane.flush sampleEnv 2 = some (sampleEnv.writeReadIoctl req, [req]) ∧
      req.plane_disable_mask = 1 ∧ req.plane_enable_mask = 0) :=
  ⟨rfl,
    (C2_flush_flag_cases sampleEnv samplePlane 4 rfl).1 ⟨by decide, by decide⟩,
    ((C2_flush_flag_cases sampleEnv samplePlane 1 rfl).2 _ rfl).1 ⟨by decide, by decide⟩,
    ((C2_flush_flag_cases sampleEnv samplePlane 2 rfl).2 _ rfl).2 ⟨by decide, by decide⟩⟩

/-- C3: on an initialized plane with a current slot, for a flags word with
PLANE_ENABLE or PLANE_DISABLE, flush submits exactly one request; its plane
type is the overlay plane, its plane index is mIndex, its plane ctx is the
page offset of the slot shifted left by 12 and ORed with mPipeConfig, modulo
2^32 (no enable bit is ORed in), and every field besides the two masks is
zero; flush returns the boolean that the channel returned for this request. -/
theorem C3_flush_request {σ : Type} (E : Env σ) (self : TngOverlayPlane σ) (flags : Nat)
    (blk : OverlayBackBufferBlk)
    (hinit : self.base.mInitialized = true)
    (hflags : flags &&& E.PLANE_ENABLE ≠ 0 ∨ flags &&& E.PLANE_DISABLE ≠ 0)
    (hslot : self.base.mBackBuffer[self.base.mCurrent]? = some blk) :
    ∃ req : drm_psb_register_rw_arg,
      self.flush E flags = some (E.writeReadIoctl req, [req]) ∧
      req.plane_type = E.DC_OVERLAY_PLANE ∧
      req.plane_index = self.base.mIndex ∧
      req.plane_ctx = (blk.gttOffsetInPage <<< 12 ||| self.base.mPipeConfig) % 2 ^ 32 ∧
      req.other_fields = 0 :=
  ⟨_, flush_submits E self flags blk hinit
    (fun h => hflags.elim (fun he => he h.1) (fun hd => hd h.2)) hslot, rfl, rfl, rfl, rfl⟩

/-- The request of the sample plane on a channel that rejects it: flush
returns false after the one call, and the ctx word is 0x345080. -/
theorem C3_flush_request_witness :
    samplePlane.base.mInitialized = true ∧
    ∃ req : drm_psb_register_rw_arg,
      samplePlane.flush failingEnv 1 = some (failingEnv.writeReadIoctl req, [req]) ∧
      req.plane_type = failingEnv.DC_OVERLAY_PLANE ∧
      req.plane_index = samplePlane.base.mIndex ∧
      req.plane_ctx = (0x345 <<< 12 ||| samplePlane.base.mPipeConfig) % 2 ^ 32 ∧
      req.other_fields = 0 :=
  ⟨rfl, C3_flush_request failingEnv samplePlane 1 ⟨⟨0x3000, 0x4000⟩, 0x345⟩
    rfl (Or.inl (by decide)) rfl⟩

/-- C10: every request that flush submits has exactly one of plane_enable_mask
and plane_disable_mask equal to 1 and the other equal to 0; when both
PLANE_ENABLE and PLANE_DISABLE are set in the flags of an initialized plane
with a current slot, the one request carries plane_disable_mask = 1 and
plane_enable_mask = 0. -/
theorem C10_flush_masks_exclusive {σ : Type} (E : Env σ) (self : TngOverlayPlane σ)
    (flags : Nat) :
    (∀ (ret : Bool) (reqs : List drm_psb_register_rw_arg),
      self.flush E flags = some (ret, reqs) → ∀ req ∈ reqs,
        (req.plane_enable_mask = 1 ∧ req.plane_disable_mask = 0) ∨
        (req.plane_enable_mask = 0 ∧ req.plane_disable_mask = 1)) ∧
    (self.base.mInitialized = true →
      ∀ blk : OverlayBackBufferBlk, self.base.mBackBuffer[self.base.mCurrent]? = some blk →
      flags &&& E.PLANE_ENABLE ≠ 0 → flags &&& E.PLANE_DISABLE ≠ 0 →
      ∃ req : drm_psb_register_rw_arg,
        self.flush E flags = some (E.writeReadIoctl req, [req]) ∧
        req.plane_disable_mask = 1 ∧ req.plane_enable_mask = 0) := by
  refine ⟨?_, ?_⟩
  · intro ret reqs h req hreq
    by_cases hinit : self.base.mInitialized = true
    · by_cases hflags : flags &&& E.PLANE_ENABLE = 0 ∧ flags &&& E.PLANE_DISABLE = 0
      · have h0 : self.flush E flags = some (false, []) := by
          unfold TngOverlayPlane.flush
          simp [RETURN_FALSE_IF_NOT_INIT, hinit, hflags]
        rw [h0] at h
        cases h
        cases hreq
      · cases hslot : self.base.mBackBuffer[self.base.mCurrent]? with
        | none =>
          have h0 : self.flush E flags = none := by
            unfold TngOverlayPlane.flush
            simp [RETURN_FALSE_IF_NOT_INIT, hinit, hflags, hslot]
          rw [h0] at h
          cases h
        | some blk =>
          rw [flush_submits E self flags blk hinit hflags hslot] at h
          cases h
          rw [List.mem_singleton] at hreq
          subst hreq
          by_cases hd : flags &&& E.PLANE_DISABLE = 0 <;> simp [hd]
    · have h0 : self.flush E flags = some (false, []) := by
        unfold TngOverlayPlane.flush
        simp [RETURN_FALSE_IF_NOT_INIT, hinit]
      rw [h0] at h
      cases h
      cases hreq
  · intro hinit blk hslot _ hd
    exact ⟨_, flush_submits E self flags blk hinit (fun h => hd h.2) hslot,
      by simp [hd], by simp [hd]⟩

/-- The flags word 3 (enable and disable) on the sample plane: the request
disables. -/
theorem C10_flush_masks_exclusive_witness :
    samplePlane.base.mInitialized = true ∧
    ∃ req : drm_psb_register_rw_arg,
      samplePlane.flush sampleEnv 3 = some (sampleEnv.writeReadIoctl req, [req]) ∧
      req.plane_disable_mask = 1 ∧ req.plane_enable_mask = 0 :=
  ⟨rfl, (C10_flush_masks_exclusive sampleEnv samplePlane 3).2 rfl _ rfl
    (by decide) (by decide)⟩

/-! ## setDataBuffer -/

/-- C7: when the base setDataBuffer fails, setDataBuffer returns false and the
plane is as the base left it; when it succeeds and the buffer is not
protected, setDataBuffer returns true and the plane is as the base left it;
when it succeeds and the buffer is protected, setDataBuffer returns true and
in the current slot OSTART_0Y and OSTART_1Y (32-bit registers) are the values
the base left ORed with 1: bit 0 is set and every other bit is unchanged. -/
theorem C7_setDataBuffer_decryption_bit {σ : Type} (E : Env σ) (self : TngOverlayPlane σ)
    (mapper : BufferMapper) :
    ((E.OverlayPlaneBase_setDataBuffer self.base mapper).1 = false →
      self.setDataBuffer E mapper =
        some (false, { self with base := (E.OverlayPlaneBase_setDataBuffer self.base mapper).2 })) ∧
    ((E.OverlayPlaneBase_setDataBuffer self.base mapper).1 = true →
      (E.OverlayPlaneBase_setDataBuffer self.base mapper).2.mIsProtectedBuffer = false →
      self.setDataBuffer E mapper =
        some (true, { self with base := (E.OverlayPlaneBase_setDataBuffer self.base mapper).2 })) ∧
    ((E.OverlayPlaneBase_setDataBuffer self.base mapper).1 = true →
      (E.OverlayPlaneBase_setDataBuffer self.base mapper).2.mIsProtectedBuffer = true →
      ∀ blk : OverlayBackBufferBlk,
        (E.OverlayPlaneBase_setDataBuffer self.base mapper).2.mBackBuffer[
          (E.OverlayPlaneBase_setDataBuffer self.base mapper).2.mCurrent]? = some blk →
        blk.buf.OSTART_0Y < 2 ^ 32 → blk.buf.OSTART_1Y < 2 ^ 32 →
        ∃ (out : TngOverlayPlane σ) (blk2 : OverlayBackBufferBlk),
          self.setDataBuffer E mapper = some (true, out) ∧
          out.base.mCurrent = (E.OverlayPlaneBase_setDataBuffer self.base mapper).2.mCurrent ∧
          out.base.mBackBuffer[out.base.mCurrent]? = some blk2 ∧
          blk2.buf.OSTART_0Y = blk.buf.OSTART_0Y ||| 1 ∧
          blk2.buf.OSTART_1Y = blk.buf.OSTART_1Y ||| 1 ∧
          blk2.buf.OSTART_0Y.testBit 0 = true ∧
          blk2.buf.OSTART_1Y.testBit 0 = true ∧
          (∀ i, 0 < i → blk2.buf.OSTART_0Y.testBit i = blk.buf.OSTART_0Y.testBit i) ∧
          (∀ i, 0 < i → blk2.buf.OSTART_1Y.testBit i = blk.buf.OSTART_1Y.testBit i)) := by
  refine ⟨?_, ?_, ?_⟩
  · intro h
    unfold TngOverlayPlane.setDataBuffer
    simp [h]
  · intro h hp
    unfold TngOverlayPlane.setDataBuffer
    simp [h, hp]
  · intro h hp blk hslot h0 h1
    have hlt : (E.OverlayPlaneBase_setDataBuffer self.base mapper).2.mCurrent <
        (E.OverlayPlaneBase_setDataBuffer self.base mapper).2.mBackBuffer.length := by
      rcases List.getElem?_eq_some.mp hslot with ⟨hl, _⟩
      exact hl
    have hone : ∀ i, 0 < i → Nat.testBit 1 i = false := by
      intro i hi
      cases i with
      | zero => exact absurd hi (Nat.lt_irrefl 0)
      | succ j => simp [Nat.testBit_succ]
    have e0 : u32 (blk.buf.OSTART_0Y ||| 1) = blk.buf.OSTART_0Y ||| 1 :=
      Nat.mod_eq_of_lt (Nat.or_lt_two_pow h0 (by norm_num))
    have e1 : u32 (blk.buf.OSTART_1Y ||| 1) = blk.buf.OSTART_1Y ||| 1 :=
      Nat.mod_eq_of_lt (Nat.or_lt_two_pow h1 (by norm_num))
    refine ⟨{ self with base :=
        { (E.OverlayPlaneBase_setDataBuffer self.base mapper).2 with
          mBackBuffer := (E.OverlayPlaneBase_setDataBuffer self.base mapper).2.mBackBuffer.set
            (E.OverlayPlaneBase_setDataBuffer self.base mapper).2.mCurrent
            ⟨⟨blk.buf.OSTART_0Y ||| 1, blk.buf.OSTART_1Y ||| 1⟩, blk.gttOffsetInPage⟩ } },
      ⟨⟨blk.buf.OSTART_0Y ||| 1, blk.buf.OSTART_1Y ||| 1⟩, blk.gttOffsetInPage⟩,
      ?_, ?_, ?_, rfl, rfl, ?_, ?_, ?_, ?_⟩
    · unfold TngOverlayPlane.setDataBuffer
      simp only [h, hp, hslot, e0, e1]
      rfl
    · rfl
    · simp [hlt]
    · simp [Nat.testBit_or]
    · simp [Nat.testBit_or]
    · intro i hi
      simp [Nat.testBit_or, hone i hi]
    · intro i hi
      simp [Nat.testBit_or, hone i hi]

/-- The protected buffer of the sample plane: the registers 0x3000 and 0x4000
of the current slot become 0x3001 and 0x4001. -/
theorem C7_setDataBuffer_decryption_bit_witness :
    (sampleEnv.OverlayPlaneBase_setDataBuffer samplePlane.base ⟨0, 0, 0, 0, none, none⟩).1 = true ∧
    ∃ (out : TngOverlayPlane Nat) (blk2 : OverlayBackBufferBlk),
      samplePlane.setDataBuffer sampleEnv ⟨0, 0, 0, 0, none, none⟩ = some (true, out) ∧
      out.base.mCurrent = 1 ∧
      out.base.mBackBuffer[out.base.mCurrent]? = some blk2 ∧
      blk2.buf.OSTART_0Y = 0x3000 ||| 1 ∧
      blk2.buf.OSTART_1Y = 0x4000 ||| 1 ∧
      blk2.buf.OSTART_0Y.testBit 0 = true ∧
      blk2.buf.OSTART_1Y.testBit 0 = true ∧
      (∀ i, 0 < i → blk2.buf.OSTART_0Y.testBit i = Nat.testBit 0x3000 i) ∧
      (∀ i, 0 < i → blk2.buf.OSTART_1Y.testBit i = Nat.testBit 0x4000 i) :=
  ⟨rfl, (C7_setDataBuffer_decryption_bit sampleEnv samplePlane ⟨0, 0, 0, 0, none, none⟩).2.2
    rfl rfl ⟨⟨0x3000, 0x4000⟩, 0x345⟩ rfl (by decide) (by decide)⟩

/-! ## initialize -/

/-- C8: when the base initialize fails, initialize returns false and makes no
call on a provider (none is constructed); when the base initialize succeeds
but the provider cannot be constructed, or its initialize fails, initialize
returns false, the plane is left not initialized, mRotationBufProvider is
null, and every provider constructed by the call has been released. -/
theorem C8_initialize_failure_releases_provider {σ : Type} (E : Env σ)
    (self : TngOverlayPlane σ) (bufferCount : Nat) :
    ((E.OverlayPlaneBase_initialize self.base bufferCount).1 = false →
      TngOverlayPlane.initialize E self bufferCount =
        (false, { self with base := (E.OverlayPlaneBase_initialize self.base bufferCount).2 }, [])) ∧
    ((E.OverlayPlaneBase_initialize self.base bufferCount).1 = true →
      (E.newRotationBufferProvider
          (E.OverlayPlaneBase_initialize self.base bufferCount).2.mWsbm = none ∨
        ∃ s, E.newRotationBufferProvider
          (E.OverlayPlaneBase_initialize self.base bufferCount).2.mWsbm = some s ∧
          (E.provider_initialize s).1 = false) →
      ( TngOverlayPlane.initialize E self bufferCount).1 = false ∧
      ( TngOverlayPlane.initialize E self bufferCount).2.1.base.mInitialized = false ∧
      ( TngOverlayPlane.initialize E self bufferCount).2.1.mRotationBufProvider = none ∧
      constructCount ( TngOverlayPlane.initialize E self bufferCount).2.2 =
        destroyCount ( TngOverlayPlane.initialize E self bufferCount).2.2) := by
  refine ⟨?_, ?_⟩
  · intro h
    unfold TngOverlayPlane.initialize
    simp [h]
  · intro h hfail
    rcases hfail with hnew | ⟨s, hnew, hi⟩
    · unfold TngOverlayPlane.initialize
      simp [h, hnew, DEINIT_AND_RETURN_FALSE, TngOverlayPlane.deinitialize,
        DEINIT_AND_DELETE_OBJ, OverlayPlaneBase.deinitialize, constructCount, destroyCount]
    · unfold TngOverlayPlane.initialize
      simp [h, hnew, hi, DEINIT_AND_RETURN_FALSE, TngOverlayPlane.deinitialize,
        DEINIT_AND_DELETE_OBJ, OverlayPlaneBase.deinitialize, constructCount, destroyCount]

/-- The fresh plane with a provider whose initialize fails: the provider is
constructed, initialized, deinitialized and destroyed. -/
theorem C8_initialize_failure_releases_provider_witness :
    (failingEnv.OverlayPlaneBase_initialize freshPlane.base 2).1 = true ∧
    ( TngOverlayPlane.initialize failingEnv freshPlane 2).1 = false ∧
    ( TngOverlayPlane.initialize failingEnv freshPlane 2).2.1.base.mInitialized = false ∧
    ( TngOverlayPlane.initialize failingEnv freshPlane 2).2.1.mRotationBufProvider = none ∧
    constructCount ( TngOverlayPlane.initialize failingEnv freshPlane 2).2.2 =
      destroyCount ( TngOverlayPlane.initialize failingEnv freshPlane 2).2.2 :=
  ⟨rfl, (C8_initialize_failure_releases_provider failingEnv freshPlane 2).2 rfl
    (Or.inr ⟨0, rfl, rfl⟩)⟩

/-! ## rotatedBufferReady -/

/-- A video buffer in the linear packed semi-planar format whose payload says
that the client applied no rotation. -/
def videoMapper : BufferMapper where
  format := 0x7FA00E00
  width := 1280
  height := 720
  yStride := 1280
  subBuffer0 := some 0x1000
  subBuffer1 := some ⟨0, 0, 0, 0, 0⟩

/-- A buffer in the format HAL_PIXEL_FORMAT_NV12 that carries no payload. -/
def nv12Mapper : BufferMapper where
  format := 0x3231564E
  width := 1280
  height := 720
  yStride := 1280
  subBuffer0 := some 0x1000
  subBuffer1 := none

/-- A buffer in the format RGBA_8888 (value 1). -/
def rgbaMapper : BufferMapper where
  format := 1
  width := 1280
  height := 720
  yStride := 1280
  subBuffer0 := some 0x1000
  subBuffer1 := some ⟨0, 0, 0, 0, 0⟩

/-- The lookup of the payload makes no call of setupRotationBuffer. -/
theorem lookupPayload_found_setupCount {σ : Type} (E : Env σ) (uninit : VideoPayloadBuffer)
    (self : TngOverlayPlane σ) (mapper : BufferMapper) (payload : VideoPayloadBuffer)
    (embedded : Bool) (provider : Option σ) (calls : List ProviderCall)
    (h : self.lookupPayload E uninit mapper = PayloadLookup.found payload embedded provider calls) :
    setupCount calls = 0 := by
  unfold TngOverlayPlane.lookupPayload at h
  split at h
  · cases h
    rfl
  · split at h
    · split at h
      · cases h
      · split at h
        · cases h
        · dsimp only at h
          split at h
          · cases h
          · cases h
            rfl
    · cases h

/-- A format that is one of the three accepted ones passes the format test. -/
theorem accepted_format {σ : Type} (E : Env σ) (f : Nat)
    (h : f = E.OMX_INTEL_COLOR_FormatYUV420PackedSemiPlanar ∨
      f = E.OMX_INTEL_COLOR_FormatYUV420PackedSemiPlanar_Tiled ∨
      f = E.HAL_PIXEL_FORMAT_NV12) :
    ¬ (f ≠ E.OMX_INTEL_COLOR_FormatYUV420PackedSemiPlanar ∧
      f ≠ E.OMX_INTEL_COLOR_FormatYUV420PackedSemiPlanar_Tiled ∧
      f ≠ E.HAL_PIXEL_FORMAT_NV12) := by
  rintro ⟨h1, h2, h3⟩
  rcases h with h | h | h
  · exact h1 h
  · exact h2 h
  · exact h3 h

/-- C4, as stated, fails: two consecutive calls on the same video buffer with
the same mTransform (4) both succeed, and the second one invokes
setupRotationBuffer again (the provider has computed two rotations), because
the client_transform of the payload is still 0. -/
theorem C4_second_call_recomputes :
    ∃ r1 r2 : RotatedResult Nat,
      samplePlane.rotatedBufferReady sampleEnv 10 ⟨0, 0, 0, 0, 0⟩ videoMapper = some r1 ∧
      r1.ret = true ∧ r1.provider = some 1 ∧
      ({ samplePlane with mRotationBufProvider := r1.provider }).rotatedBufferReady
        sampleEnv 11 ⟨0, 0, 0, 0, 0⟩ r1.mapper = some r2 ∧
      r2.ret = true ∧ setupCount r2.calls = 1 ∧ r2.provider = some 2 :=
  ⟨_, _, rfl, rfl, rfl, rfl, rfl, rfl, rfl⟩

/-- C4, amended: after a first call of rotatedBufferReady, a second call on the
same mapped buffer with the same mTransform and an accepted format, whose
payload has client_transform equal to mTransform, does not invoke
setupRotationBuffer and leaves the provider as the lookup of the payload left
it; unless the payload forces GPU output, the call returns true with the
rotated mapper resolved from the mapper and the payload. -/
theorem C4_unchanged_orientation_skips_setup {σ : Type} (E : Env σ) (now1 now2 : Nat)
    (uninit1 uninit2 : VideoPayloadBuffer) (self : TngOverlayPlane σ) (mapper : BufferMapper)
    (r1 : RotatedResult σ) (payload : VideoPayloadBuffer) (embedded : Bool)
    (provider : Option σ) (calls : List ProviderCall)
    (_hfirst : self.rotatedBufferReady E now1 uninit1 mapper = some r1)
    (hfmt : r1.mapper.format = E.OMX_INTEL_COLOR_FormatYUV420PackedSemiPlanar ∨
      r1.mapper.format = E.OMX_INTEL_COLOR_FormatYUV420PackedSemiPlanar_Tiled ∨
      r1.mapper.format = E.HAL_PIXEL_FORMAT_NV12)
    (hfound : ({ self with mRotationBufProvider := r1.provider }).lookupPayload E uninit2
      r1.mapper = PayloadLookup.found payload embedded provider calls)
    (hsame : payload.client_transform = self.base.mTransform) :
    ∃ r2 : RotatedResult σ,
      ({ self with mRotationBufProvider := r1.provider }).rotatedBufferReady E now2 uninit2
        r1.mapper = some r2 ∧
      setupCount r2.calls = 0 ∧
      r2.provider = provider ∧
      r2.mapper = r1.mapper ∧
      (payload.force_output_method ≠ E.FORCE_OUTPUT_GPU →
        r2.ret = true ∧ r2.rotatedMapper = some (E.getTTMMapper r1.mapper payload)) := by
  have hc := lookupPayload_found_setupCount E uninit2 _ _ _ _ _ _ hfound
  have hf := accepted_format E _ hfmt
  by_cases hgpu : payload.force_output_method = E.FORCE_OUTPUT_GPU
  · refine ⟨⟨false, none, r1.mapper, provider, calls⟩, ?_, hc, rfl, rfl, fun h => absurd hgpu h⟩
    unfold TngOverlayPlane.rotatedBufferReady
    simp only [hf, if_false, hfound, TngOverlayPlane.rotateWithPayload, hgpu, if_true]
  · refine ⟨⟨true, some (E.getTTMMapper r1.mapper payload), r1.mapper, provider, calls⟩,
      ?_, hc, rfl, rfl, fun _ => ⟨rfl, rfl⟩⟩
    unfold TngOverlayPlane.rotatedBufferReady
    simp [hf, hfound, TngOverlayPlane.rotateWithPayload, hgpu, hsame]

/-- Two calls on a video buffer whose payload has client_transform 4, the
transform of the sample plane: neither invokes setupRotationBuffer. -/
theorem C4_unchanged_orientation_skips_setup_witness :
    ∃ r2 : RotatedResult Nat,
      samplePlane.rotatedBufferReady sampleEnv 11 ⟨0, 0, 0, 0, 0⟩
        { videoMapper with subBuffer1 := some ⟨0, 4, 0, 0, 0⟩ } = some r2 ∧
      setupCount r2.calls = 0 ∧
      r2.provider = some 0 ∧
      r2.mapper = { videoMapper with subBuffer1 := some ⟨0, 4, 0, 0, 0⟩ } ∧
      ((⟨0, 4, 0, 0, 0⟩ : VideoPayloadBuffer).force_output_method ≠ sampleEnv.FORCE_OUTPUT_GPU →
        r2.ret = true ∧
        r2.rotatedMapper = some (sampleEnv.getTTMMapper
          { videoMapper with subBuffer1 := some ⟨0, 4, 0, 0, 0⟩ } ⟨0, 4, 0, 0, 0⟩)) :=
  C4_unchanged_orientation_skips_setup sampleEnv 10 11 ⟨0, 0, 0, 0, 0⟩ ⟨0, 0, 0, 0, 0⟩
    samplePlane { videoMapper with subBuffer1 := some ⟨0, 4, 0, 0, 0⟩ }
    ⟨true, some 0x7FA00E01, { videoMapper with subBuffer1 := some ⟨0, 4, 0, 0, 0⟩ }, some 0, []⟩
    ⟨0, 4, 0, 0, 0⟩ true (some 0) [] rfl (Or.inl rfl) rfl rfl

/-- C5: a call with an accepted format that finds a payload (embedded or
built by prepareBufferInfo) with a provider present, no forced GPU output and
client_transform different from mTransform, writes the current time into
hwc_timestamp and mTransform into layer_transform of the descriptor (its
other fields stay as found) and then invokes setupRotationBuffer exactly once,
on that descriptor with orientation mTransform.  The call returns what
setupRotationBuffer returned: on failure false without a rotated mapper, on
success true with the rotated mapper resolved by getTTMMapper from the mapper
and the descriptor.  An embedded descriptor is written in the memory of the
mapper: after the call that memory holds what setupRotationBuffer left of the
stamped descriptor, and the stamped descriptor itself when the provider did
not write to it; a descriptor built for the call leaves the mapper as it
was. -/
theorem C5_changed_orientation_recomputes {σ : Type} (E : Env σ) (now : Nat)
    (uninit : VideoPayloadBuffer) (self : TngOverlayPlane σ) (mapper : BufferMapper)
    (payload : VideoPayloadBuffer) (embedded : Bool) (s : σ) (calls : List ProviderCall)
    (hfmt : mapper.format = E.OMX_INTEL_COLOR_FormatYUV420PackedSemiPlanar ∨
      mapper.format = E.OMX_INTEL_COLOR_FormatYUV420PackedSemiPlanar_Tiled ∨
      mapper.format = E.HAL_PIXEL_FORMAT_NV12)
    (hfound : self.lookupPayload E uninit mapper =
      PayloadLookup.found payload embedded (some s) calls)
    (hgpu : payload.force_output_method ≠ E.FORCE_OUTPUT_GPU)
    (hdiff : payload.client_transform ≠ self.base.mTransform) :
    ∃ res : RotatedResult σ,
      self.rotatedBufferReady E now uninit mapper = some res ∧
      res.calls = calls ++ [ProviderCall.setupRotationBuffer
        ⟨payload.force_output_method, payload.client_transform, self.base.mTransform, now,
          payload.other_fields⟩
        self.base.mTransform] ∧
      setupCount res.calls = 1 ∧
      res.ret = (E.setupRotationBuffer s
        ⟨payload.force_output_method, payload.client_transform, self.base.mTransform, now,
          payload.other_fields⟩
        self.base.mTransform).1 ∧
      res.provider = some (E.setupRotationBuffer s
        ⟨payload.force_output_method, payload.client_transform, self.base.mTransform, now,
          payload.other_fields⟩
        self.base.mTransform).2.2 ∧
      (embedded = true →
        res.mapper = ⟨mapper.format, mapper.width, mapper.height, mapper.yStride,
          mapper.subBuffer0, some (E.setupRotationBuffer s
            ⟨payload.force_output_method, payload.client_transform, self.base.mTransform, now,
              payload.other_fields⟩
            self.base.mTransform).2.1⟩) ∧
      (embedded = true →
        (E.setupRotationBuffer s
            ⟨payload.force_output_method, payload.client_transform, self.base.mTransform, now,
              payload.other_fields⟩
            self.base.mTransform).2.1 =
          ⟨payload.force_output_method, payload.client_transform, self.base.mTransform, now,
            payload.other_fields⟩ →
        res.mapper.subBuffer1 = some
          ⟨payload.force_output_method, payload.client_transform, self.base.mTransform, now,
            payload.other_fields⟩) ∧
      (embedded = false → res.mapper = mapper) ∧
      (res.ret = false → res.rotatedMapper = none) ∧
      (res.ret = true → res.rotatedMapper = some (E.getTTMMapper res.mapper
        (E.setupRotationBuffer s
          ⟨payload.force_output_method, payload.client_transform, self.base.mTransform, now,
            payload.other_fields⟩
          self.base.mTransform).2.1)) := by
  have hc := lookupPayload_found_setupCount E uninit _ _ _ _ _ _ hfound
  have hf := accepted_format E _ hfmt
  have hcount : ∀ (p : VideoPayloadBuffer) (t : Nat),
      setupCount (calls ++ [ProviderCall.setupRotationBuffer p t]) = 1 := by
    intro p t
    unfold setupCount at hc ⊢
    rw [List.filter_append, List.length_append, hc]
    rfl
  have hstore : ∀ d : VideoPayloadBuffer, embedded = true →
      storePayload mapper embedded d = ⟨mapper.format, mapper.width, mapper.height,
        mapper.yStride, mapper.subBuffer0, some d⟩ := by
    intro d he
    subst he
    rfl
  have hkeep : ∀ d : VideoPayloadBuffer, embedded = false →
      storePayload mapper embedded d = mapper := by
    intro d he
    subst he
    rfl
  cases hr : (E.setupRotationBuffer s
      ⟨payload.force_output_method, payload.client_transform, self.base.mTransform, now,
        payload.other_fields⟩
      self.base.mTransform).1 with
  | false =>
    refine ⟨⟨false, none,
      storePayload mapper embedded (E.setupRotationBuffer s
        ⟨payload.force_output_method, payload.client_transform, self.base.mTransform, now,
          payload.other_fields⟩
        self.base.mTransform).2.1,
      some (E.setupRotationBuffer s
        ⟨payload.force_output_method, payload.client_transform, self.base.mTransform, now,
          payload.other_fields⟩
        self.base.mTransform).2.2,
      calls ++ [ProviderCall.setupRotationBuffer
        ⟨payload.force_output_method, payload.client_transform, self.base.mTransform, now,
          payload.other_fields⟩
        self.base.mTransform]⟩,
      ?_, rfl, hcount _ _, rfl, rfl, hstore _, ?_, hkeep _, fun _ => rfl, ?_⟩
    · unfold TngOverlayPlane.rotatedBufferReady
      simp only [hf, if_false, hfound, TngOverlayPlane.rotateWithPayload, hgpu, hdiff,
        ne_eq, not_false_eq_true, if_true, hr]
    · intro he hsame
      show (storePayload mapper embedded _).subBuffer1 = _
      rw [hstore _ he, hsame]
    · intro h
      cases h
  | true =>
    refine ⟨⟨true,
      some (E.getTTMMapper
        (storePayload mapper embedded (E.setupRotationBuffer s
          ⟨payload.force_output_method, payload.client_transform, self.base.mTransform, now,
            payload.other_fields⟩
          self.base.mTransform).2.1)
        (E.setupRotationBuffer s
          ⟨payload.force_output_method, payload.client_transform, self.base.mTransform, now,
            payload.other_fields⟩
          self.base.mTransform).2.1),
      storePayload mapper embedded (E.setupRotationBuffer s
        ⟨payload.force_output_method, payload.client_transform, self.base.mTransform, now,
          payload.other_fields⟩
        self.base.mTransform).2.1,
      some (E.setupRotationBuffer s
        ⟨payload.force_output_method, payload.client_transform, self.base.mTransform, now,
          payload.other_fields⟩
        self.base.mTransform).2.2,
      calls ++ [ProviderCall.setupRotationBuffer
        ⟨payload.force_output_method, payload.client_transform, self.base.mTransform, now,
          payload.other_fields⟩
        self.base.mTransform]⟩,
      ?_, rfl, hcount _ _, rfl, rfl, hstore _, ?_, hkeep _, ?_, fun _ => rfl⟩
    · unfold TngOverlayPlane.rotatedBufferReady
      simp only [hf, if_false, hfound, TngOverlayPlane.rotateWithPayload, hgpu, hdiff,
        ne_eq, not_false_eq_true, if_true, hr]
      simp
    · intro he hsame
      show (storePayload mapper embedded _).subBuffer1 = _
      rw [hstore _ he, hsame]
    · intro h
      cases h

/-- The sample plane (transform 4) on the video buffer (client transform 0)
at time 10: one call of setupRotationBuffer on the stamped descriptor, which
is then found in the memory of the mapper with layer_transform 4 and
hwc_timestamp 10. -/
theorem C5_changed_orientation_recomputes_witness :
    ∃ res : RotatedResult Nat,
      samplePlane.rotatedBufferReady sampleEnv 10 ⟨0, 0, 0, 0, 0⟩ videoMapper = some res ∧
      res.calls = [] ++ [ProviderCall.setupRotationBuffer ⟨0, 0, 4, 10, 0⟩ 4] ∧
      setupCount res.calls = 1 ∧
      res.ret = (sampleEnv.setupRotationBuffer 0 ⟨0, 0, 4, 10, 0⟩ 4).1 ∧
      res.provider = some (sampleEnv.setupRotationBuffer 0 ⟨0, 0, 4, 10, 0⟩ 4).2.2 ∧
      (true = true →
        res.mapper = ⟨videoMapper.format, videoMapper.width, videoMapper.height,
          videoMapper.yStride, videoMapper.subBuffer0,
          some (sampleEnv.setupRotationBuffer 0 ⟨0, 0, 4, 10, 0⟩ 4).2.1⟩) ∧
      (true = true →
        (sampleEnv.setupRotationBuffer 0 ⟨0, 0, 4, 10, 0⟩ 4).2.1 = ⟨0, 0, 4, 10, 0⟩ →
        res.mapper.subBuffer1 = some ⟨0, 0, 4, 10, 0⟩) ∧
      (true = false → res.mapper = videoMapper) ∧
      (res.ret = false → res.rotatedMapper = none) ∧
      (res.ret = true → res.rotatedMapper = some (sampleEnv.getTTMMapper res.mapper
        (sampleEnv.setupRotationBuffer 0 ⟨0, 0, 4, 10, 0⟩ 4).2.1)) :=
  C5_changed_orientation_recomputes sampleEnv 10 ⟨0, 0, 0, 0, 0⟩ samplePlane videoMapper
    ⟨0, 0, 0, 0, 0⟩ true 0 [] (Or.inl rfl) rfl (by decide) (by decide)

/-- C6, as stated, fails: HAL_PIXEL_FORMAT_NV12 is neither of the two packed
semi-planar formats, and a buffer of that format without payload makes the
call invoke prepareBufferInfo and setupRotationBuffer, assign the rotated
mapper and return true. -/
theorem C6_nv12_is_accepted :
    nv12Mapper.format ≠ sampleEnv.OMX_INTEL_COLOR_FormatYUV420PackedSemiPlanar ∧
    nv12Mapper.format ≠ sampleEnv.OMX_INTEL_COLOR_FormatYUV420PackedSemiPlanar_Tiled ∧
    samplePlane.rotatedBufferReady sampleEnv 10 ⟨9, 9, 9, 9, 9⟩ nv12Mapper =
      some ⟨true, some 0x32315653, nv12Mapper, some 1,
        [ProviderCall.prepareBufferInfo 1280 720 1280 0x1000,
          ProviderCall.setupRotationBuffer ⟨0, 0, 4, 10, 3280⟩ 4]⟩ := by
  refine ⟨by decide, by decide, ?_⟩
  rfl

/-- C6, amended: a mapped buffer whose format is none of the three accepted
ones (the two packed semi-planar formats and HAL_PIXEL_FORMAT_NV12) makes
rotatedBufferReady return false without any call on the rotation provider and
without assigning the rotated mapper; the mapper and the provider are left as
they were. -/
theorem C6_unsupported_format_rejected {σ : Type} (E : Env σ) (now : Nat)
    (uninit : VideoPayloadBuffer) (self : TngOverlayPlane σ) (mapper : BufferMapper)
    (h1 : mapper.format ≠ E.OMX_INTEL_COLOR_FormatYUV420PackedSemiPlanar)
    (h2 : mapper.format ≠ E.OMX_INTEL_COLOR_FormatYUV420PackedSemiPlanar_Tiled)
    (h3 : mapper.format ≠ E.HAL_PIXEL_FORMAT_NV12) :
    self.rotatedBufferReady E now uninit mapper =
      some ⟨false, none, mapper, self.mRotationBufProvider, []⟩ := by
  unfold TngOverlayPlane.rotatedBufferReady
  rw [if_pos ⟨h1, h2, h3⟩]

/-- An RGBA buffer on the sample plane is rejected without a provider call. -/
theorem C6_unsupported_format_rejected_witness :
    rgbaMapper.format ≠ sampleEnv.HAL_PIXEL_FORMAT_NV12 ∧
    samplePlane.rotatedBufferReady sampleEnv 10 ⟨9, 9, 9, 9, 9⟩ rgbaMapper =
      some ⟨false, none, rgbaMapper, samplePlane.mRotationBufProvider, []⟩ :=
  ⟨by decide, C6_unsupported_format_rejected sampleEnv 10 ⟨9, 9, 9, 9, 9⟩ samplePlane
    rgbaMapper (by decide) (by decide) (by decide)⟩

/-! ## Operations on a plane that is not initialized -/

/-- C9, as stated, fails: rotatedBufferReady succeeds on a plane that was never
initialized, when the payload of the buffer has the client_transform that the
plane requests. -/
theorem C9_rotatedBufferReady_without_init :
    freshPlane.base.mInitialized = false ∧
    freshPlane.rotatedBufferReady sampleEnv 10 ⟨9, 9, 9, 9, 9⟩ videoMapper =
      some ⟨true, some 0x7FA00E01, videoMapper, none, []⟩ :=
  ⟨rfl, rfl⟩

/-- C9, amended: on a plane that is not initialized, flip returns false for
every context argument and leaves the plane as it was; flush returns false for
every flags word without a call of writeReadIoctl; setDataBuffer returns false
for every mapper, through the base setDataBuffer to which it delegates at once
and which requires the initialized state.  rotatedBufferReady makes no check
of the state: its result is the same whatever mInitialized is. -/
theorem C9_not_initialized_flip_flush_fail {σ : Type} (E : Env σ) (self : TngOverlayPlane σ)
    (hnot : self.base.mInitialized = false)
    (hbase : ∀ (b : OverlayPlaneBase) (m : BufferMapper), b.mInitialized = false →
      (E.OverlayPlaneBase_setDataBuffer b m).1 = false) :
    (∀ ctx : Nat, self.flip E ctx = some (false, self)) ∧
    (∀ flags : Nat, self.flush E flags = some (false, [])) ∧
    (∀ mapper : BufferMapper,
      self.setDataBuffer E mapper =
        some (false, { self with base := (E.OverlayPlaneBase_setDataBuffer self.base mapper).2 })) ∧
    (∀ (now : Nat) (uninit : VideoPayloadBuffer) (mapper : BufferMapper) (state : Bool),
      ({ self with base := { self.base with mInitialized := state } }).rotatedBufferReady
          E now uninit mapper =
        self.rotatedBufferReady E now uninit mapper) := by
  refine ⟨?_, ?_, ?_, ?_⟩
  · intro ctx
    unfold TngOverlayPlane.flip
    simp [RETURN_FALSE_IF_NOT_INIT, hnot]
  · intro flags
    unfold TngOverlayPlane.flush
    simp [RETURN_FALSE_IF_NOT_INIT, hnot]
  · intro mapper
    unfold TngOverlayPlane.setDataBuffer
    simp [hbase self.base mapper hnot]
  · intro now uninit mapper state
    rfl

/-- The fresh plane, which was never initialized: flip, flush and
setDataBuffer fail, while rotatedBufferReady ignores the state. -/
theorem C9_not_initialized_flip_flush_fail_witness :
    freshPlane.base.mInitialized = false ∧
    (∀ ctx : Nat, freshPlane.flip guardedEnv ctx = some (false, freshPlane)) ∧
    (∀ flags : Nat, freshPlane.flush guardedEnv flags = some (false, [])) ∧
    (∀ mapper : BufferMapper,
      freshPlane.setDataBuffer guardedEnv mapper =
        some (false, { freshPlane with
          base := (guardedEnv.OverlayPlaneBase_setDataBuffer freshPlane.base mapper).2 })) ∧
    (∀ (now : Nat) (uninit : VideoPayloadBuffer) (mapper : BufferMapper) (state : Bool),
      ({ freshPlane with base := { freshPlane.base with mInitialized := state } }).rotatedBufferReady
          guardedEnv now uninit mapper =
        freshPlane.rotatedBufferReady guardedEnv now uninit mapper) :=
  ⟨rfl, C9_not_initialized_flip_flush_fail guardedEnv freshPlane rfl (fun _ _ h => h)⟩

end Tangier
